import Mathlib

/-!
Verification of the LLM_TOPIX backend article pipeline.

Shallow embedding of the Python sources under `backend/app/`:
* `services/formatters.py`   — `ArticleFormatter.truncate_summary`,
  `format_article_for_api`, `format_articles_list`;
* `services/article_service.py` — `ArticleService.get_latest_articles`,
  `_fetch_articles_from_database`;
* `utils/date_helpers.py`    — `format_datetime_to_utc_iso8601`;
* `utils/response_helpers.py` — `create_error_response`,
  `create_success_response`;
* `routes/articles.py`       — the `GET /api/articles/latest` handler;
* `exceptions.py`            — the exception class hierarchy;
* `config/constants.py`      — the constants used above.

Python strings are modelled as Lean `String` (a list of unicode scalar
values, matching Python's code-point semantics for `len` and slicing).
Python `datetime` values are modelled by `PyDateTime` below.  Exceptions
are modelled by the inductive `PyError`, and functions that can raise are
given `Except PyError` result types.  Impure inputs (the database table,
the current time) are passed as explicit parameters.
-/

namespace LLMTopix

/-! ### constants (config/constants.py) -/

def PERFORMANCE_THRESHOLD_MS : Nat := 50

/-- `SUMMARY_MAX_LENGTH` from `config/constants.py`.  Modelled as `Int`
because Python's `int` parameter admits negative values. -/
def SUMMARY_MAX_LENGTH : Int := 100

def SUMMARY_TRUNCATE_SUFFIX : String := "..."

def ERROR_CODE_DATABASE_UNAVAILABLE : String := "DATABASE_UNAVAILABLE"

def ERROR_CODE_INTERNAL_SERVER_ERROR : String := "INTERNAL_SERVER_ERROR"

/-! ### Python string slicing

`pySliceTo s m` models the Python expression `s[:m]` on a string with
character list `s`: for `m ≥ 0` it is the first `m` characters, for
`m < 0` it is all but the last `|m|` characters (clamped at the empty
string), i.e. `s[0 : max 0 (len s + m)]`. -/

def pySliceTo (s : List Char) (m : Int) : List Char :=
  if 0 ≤ m then s.take m.toNat else s.take (s.length - (-m).toNat)

/-! ### ArticleFormatter.truncate_summary (services/formatters.py) -/

/-- `ArticleFormatter.truncate_summary(summary, max_length=SUMMARY_MAX_LENGTH)`:
`None` yields `""`; a string of length at most `max_length` is returned
unchanged; otherwise the slice `summary[:max_length]` is returned with the
suffix `SUMMARY_TRUNCATE_SUFFIX` appended. -/
def truncate_summary (summary : Option String)
    (max_length : Int := SUMMARY_MAX_LENGTH) : String :=
  match summary with
  | none => ""
  | some s =>
    if (s.length : Int) ≤ max_length then s
    else String.mk (pySliceTo s.data max_length) ++ SUMMARY_TRUNCATE_SUFFIX

/-! ### Python datetimes (datetime.datetime)

A `datetime` is represented by its naive wall-clock reading `wall`
(seconds since 1970-01-01T00:00:00 of the wall clock, proleptic
Gregorian), its `microsecond` field, and its utcoffset in seconds
(`none` models both `tzinfo is None` and `tzinfo.utcoffset(dt) is None`,
the two cases the source treats as naive). -/

structure PyDateTime where
  wall : Int
  micro : Nat
  tz : Option Int
  deriving DecidableEq, Repr

/-- The instant of a naive datetime in microseconds, used as the
database ordering key for the `published_at` column. -/
def PyDateTime.micros (dt : PyDateTime) : Int :=
  dt.wall * 1000000 + dt.micro

/-! ### rendering of `datetime.isoformat()`

`digitChar`, `natChars` and `padNum` model CPython's `%0Nd` decimal
rendering; `civilFromDays` is the standard proleptic-Gregorian
civil-from-days conversion computed by the C library underneath
`datetime`.  All recursions are structural (fuelled) so that concrete
instances reduce in the kernel. -/

def digitChar : Nat → Char
  | 0 => '0' | 1 => '1' | 2 => '2' | 3 => '3' | 4 => '4'
  | 5 => '5' | 6 => '6' | 7 => '7' | 8 => '8' | _ => '9'

def natCharsAux : Nat → Nat → List Char
  | 0, _ => []
  | _ + 1, 0 => []
  | fuel + 1, n + 1 => natCharsAux fuel ((n + 1) / 10) ++ [digitChar ((n + 1) % 10)]

def natChars (n : Nat) : List Char := natCharsAux n n

def padNum (w n : Nat) : List Char :=
  List.replicate (w - (natChars n).length) '0' ++ natChars n

def civilFromDays (z0 : Int) : Int × Int × Int :=
  let z := z0 + 719468
  let era : Int := (if 0 ≤ z then z else z - 146096) / 146097
  let doe : Int := z - era * 146097
  let yoe : Int := (doe - doe / 1460 + doe / 36524 - doe / 146096) / 365
  let y : Int := yoe + era * 400
  let doy : Int := doe - (365 * yoe + yoe / 4 - yoe / 100)
  let mp : Int := (5 * doy + 2) / 153
  let d : Int := doy - (153 * mp + 2) / 5 + 1
  let m : Int := mp + (if mp < 10 then 3 else -9)
  (y + (if m ≤ 2 then 1 else 0), m, d)

/-- `dt.isoformat()` of a naive datetime with wall-clock `wall` and
microsecond `micro`: `YYYY-MM-DDTHH:MM:SS`, followed by `.ffffff` iff
`micro ≠ 0` (CPython omits the fraction exactly when the microsecond
field is zero). -/
def isoformatNoOffset (wall : Int) (micro : Nat) : List Char :=
  let days := Int.fdiv wall 86400
  let sod := (wall - days * 86400).toNat
  let ymd := civilFromDays days
  padNum 4 ymd.1.toNat ++ '-' :: padNum 2 ymd.2.1.toNat ++ '-' :: padNum 2 ymd.2.2.toNat
    ++ 'T' :: padNum 2 (sod / 3600) ++ ':' :: padNum 2 (sod % 3600 / 60)
    ++ ':' :: padNum 2 (sod % 60)
    ++ (if micro = 0 then [] else '.' :: padNum 6 micro)

/-- The `+00:00` offset suffix that `isoformat()` appends to a
UTC-aware datetime. -/
def utcOffsetChars : List Char := ['+', '0', '0', ':', '0', '0']

def startsWithList : List Char → List Char → Bool
  | [], _ => true
  | _ :: _, [] => false
  | p :: ps, c :: cs => if p = c then startsWithList ps cs else false

/-- Python `str.replace`: replace every non-overlapping occurrence of
`pat` in `s` by `rep`, scanning left to right (`pat` assumed nonempty,
as in the single call site `replace('+00:00', 'Z')`).  Fuelled by the
length of `s`. -/
def pyReplaceAux (pat rep : List Char) : Nat → List Char → List Char
  | 0, s => s
  | _ + 1, [] => []
  | fuel + 1, c :: rest =>
    if pat ≠ [] ∧ startsWithList pat (c :: rest) = true then
      rep ++ pyReplaceAux pat rep fuel ((c :: rest).drop pat.length)
    else
      c :: pyReplaceAux pat rep fuel rest

def pyReplace (s pat rep : List Char) : List Char := pyReplaceAux pat rep s.length s

/-! ### format_datetime_to_utc_iso8601 (utils/date_helpers.py) -/

/-- The naive wall clock of `dt` after the source's UTC normalisation:
a naive datetime keeps its wall clock (`dt.replace(tzinfo=timezone.utc)`),
an aware one is shifted by its utcoffset (`dt.astimezone(timezone.utc)`). -/
def utcWall (dt : PyDateTime) : Int :=
  match dt.tz with
  | none => dt.wall
  | some off => dt.wall - off

/-- Body of `format_datetime_to_utc_iso8601` for a non-`None` argument:
`dt_utc.isoformat().replace('+00:00', 'Z')`, where `dt_utc.isoformat()`
is the naive rendering followed by the `+00:00` offset suffix. -/
def format_datetime_value (dt : PyDateTime) : String :=
  String.mk (pyReplace (isoformatNoOffset (utcWall dt) dt.micro ++ utcOffsetChars)
    utcOffsetChars ['Z'])

/-- `format_datetime_to_utc_iso8601(dt)` from `utils/date_helpers.py`. -/
def format_datetime_to_utc_iso8601 : Option PyDateTime → Option String
  | none => none
  | some dt => some (format_datetime_value dt)

/-! ### exceptions (exceptions.py, plus the built-in and library
exceptions the sources raise or catch) -/

inductive PyError where
  /-- `sqlalchemy.exc.SQLAlchemyError` -/
  | sqlalchemyError (msg : String)
  /-- built-in `ValueError` -/
  | valueError (msg : String)
  /-- `ApplicationError(message, status_code=500)` -/
  | applicationError (msg : String) (status_code : Nat)
  /-- `DatabaseError(message)`, an `ApplicationError` with status 503 -/
  | databaseError (msg : String)
  /-- `ValidationError(message)`, an `ApplicationError` with status 400 -/
  | validationError (msg : String)
  /-- `NotFoundError(message)`, an `ApplicationError` with status 404 -/
  | notFoundError (msg : String)
  /-- any other exception -/
  | otherError (msg : String)
  deriving DecidableEq, Repr

/-- `str(e)`. -/
def PyError.str : PyError → String
  | .sqlalchemyError m | .valueError m | .applicationError m _
  | .databaseError m | .validationError m | .notFoundError m | .otherError m => m

/-- `isinstance(e, SQLAlchemyError)`. -/
def PyError.isSQLAlchemyError : PyError → Bool
  | .sqlalchemyError _ => true
  | _ => false

/-- `isinstance(e, DatabaseError)`. -/
def PyError.isDatabaseError : PyError → Bool
  | .databaseError _ => true
  | _ => false

/-- `isinstance(e, ApplicationError)` (the class hierarchy of
`exceptions.py`: `DatabaseError`, `ValidationError` and `NotFoundError`
are subclasses). -/
def PyError.isApplicationError : PyError → Bool
  | .applicationError _ _ | .databaseError _ | .validationError _ | .notFoundError _ => true
  | _ => false

/-- `getattr(e, 'status_code', 500)`: `ApplicationError` instances carry
their declared status (`DatabaseError` 503, `ValidationError` 400,
`NotFoundError` 404, plain `ApplicationError` its constructor argument);
every other exception lacks the attribute and defaults to 500. -/
def PyError.status_code : PyError → Nat
  | .applicationError _ s => s
  | .databaseError _ => 503
  | .validationError _ => 400
  | .notFoundError _ => 404
  | .sqlalchemyError _ | .valueError _ | .otherError _ => 500

/-! ### rows and formatted articles

`Row` is a raw row as handed to the formatter; its fields are `Option`s
because `format_article_for_api` probes each required attribute for
`None` (the spec's data-integrity guard). -/

structure Row where
  id : Option Int
  title : Option String
  summary : Option String
  published_at : Option PyDateTime
  source_url : Option String
  deriving DecidableEq, Repr

structure FormattedArticle where
  id : Int
  title : String
  summary_truncated : String
  published_at : PyDateTime
  source_url : String
  deriving DecidableEq, Repr

/-! ### ArticleFormatter.format_article_for_api / format_articles_list -/

/-- `ArticleFormatter.format_article_for_api(article)`: raises
`ValueError` on the first `None` required field, checked in source
order `id`, `title`, `published_at`, `source_url`; otherwise builds the
API dictionary, truncating the summary with the default max length. -/
def format_article_for_api (article : Row) : Except PyError FormattedArticle :=
  match article.id with
  | none => .error (.valueError "Article ID cannot be None for API formatting")
  | some i =>
    match article.title with
    | none => .error (.valueError "Article title cannot be None for API formatting")
    | some t =>
      match article.published_at with
      | none => .error (.valueError "Article published_at cannot be None for API formatting")
      | some p =>
        match article.source_url with
        | none => .error (.valueError "Article source_url cannot be None for API formatting")
        | some u =>
          .ok { id := i, title := t,
                summary_truncated := truncate_summary article.summary,
                published_at := p, source_url := u }

/-- `ArticleFormatter.format_articles_list(articles)`: the list
comprehension formats rows left to right; the first raised exception
aborts the whole comprehension. -/
def format_articles_list : List Row → Except PyError (List FormattedArticle)
  | [] => .ok []
  | a :: rest =>
    match format_article_for_api a with
    | .error e => .error e
    | .ok f =>
      match format_articles_list rest with
      | .error e => .error e
      | .ok fs => .ok (f :: fs)

/-! ### ArticleService (services/article_service.py)

The database interaction is impure, so `get_latest_articles` is
parameterised by the outcome of `self._fetch_articles_from_database()`:
either the fetched rows or the exception that call raised.
`_check_performance` only logs and never raises, so it contributes
nothing to the result. -/

/-- The body of the `try` block of `get_latest_articles`. -/
def service_try_body (fetched : Except PyError (List Row)) :
    Except PyError (List FormattedArticle) :=
  match fetched with
  | .error e => .error e
  | .ok rows => format_articles_list rows

/-- `ArticleService.get_latest_articles()`: any `SQLAlchemyError`
escaping the try block is wrapped into `DatabaseError`, any other
exception into `ApplicationError` (status 500 by default). -/
def get_latest_articles (fetched : Except PyError (List Row)) :
    Except PyError (List FormattedArticle) :=
  match service_try_body fetched with
  | .ok formatted_articles => .ok formatted_articles
  | .error e =>
    if e.isSQLAlchemyError then
      .error (.databaseError ("Database query failed: " ++ e.str))
    else
      .error (.applicationError ("Unexpected error in get_latest_articles: " ++ e.str) 500)

/-! ### the repository query (_fetch_articles_from_database)

The method builds
`select(id, title, summary, published_at, source_url).order_by(desc(published_at)).limit(5)`
and executes it against the database.  The execution itself happens in
the storage engine: it is modelled here by standard SQL semantics over
the table contents — sort by the `published_at` key descending (ties in
an arbitrary engine-chosen order, realised by a particular stable sort),
keep the first 5 rows, and project the five selected columns. -/

/-- A row of the `articles` table as declared in `models/article.py`
(all selected columns are `nullable=False`; `published_at` values are
naive timestamps). -/
structure ArticleRecord where
  id : Int
  title : String
  summary : String
  published_at : PyDateTime
  source_url : String
  deriving DecidableEq, Repr

/-- `ORDER BY published_at DESC` as a relation on table rows. -/
def pubDesc (a b : ArticleRecord) : Prop :=
  b.published_at.micros ≤ a.published_at.micros

instance : DecidableRel pubDesc := fun a b =>
  inferInstanceAs (Decidable (b.published_at.micros ≤ a.published_at.micros))

instance : IsTotal ArticleRecord pubDesc :=
  ⟨fun a b => by unfold pubDesc; exact le_total _ _⟩

instance : IsTrans ArticleRecord pubDesc :=
  ⟨fun x y z hab hbc => by unfold pubDesc at *; exact le_trans hbc hab⟩

/-- The projection of a table row onto the selected columns, as a raw
result row. -/
def selectColumns (a : ArticleRecord) : Row :=
  { id := some a.id, title := some a.title, summary := some a.summary,
    published_at := some a.published_at, source_url := some a.source_url }

/-- `ArticleService._fetch_articles_from_database()` run against a table
holding `table`: sort descending by `published_at`, limit 5, select the
five columns. -/
def fetch_articles_from_database (table : List ArticleRecord) : List Row :=
  ((List.insertionSort pubDesc table).take 5).map selectColumns

/-! ### response envelopes (utils/response_helpers.py)

The JSON bodies produced by the route are either the success envelope
`{"status":"success","data":{"articles":[...],"count":N}}` or the error
envelope `{"status":"error","error":{code,message,details}}`.  `details`
is a string-keyed dictionary (the only values ever stored are strings). -/

structure WireArticle where
  id : Int
  title : String
  summary_truncated : String
  published_at : String
  source_url : String
  deriving DecidableEq, Repr

structure ArticlesData where
  articles : List WireArticle
  count : Nat
  deriving DecidableEq, Repr

inductive BodyJson where
  | success (data : ArticlesData)
  | error (code : String) (message : String) (details : List (String × String))
  deriving DecidableEq, Repr

/-- `create_error_response(error_code, message, status_code, details=None)`.
The current time is impure, so the value of `datetime.utcnow().isoformat()`
is passed as the parameter `now_iso`; the source appends `"Z"` to it.
`details or {...}` substitutes the timestamp dictionary whenever
`details` is `None` or an empty (falsy) dictionary. -/
def create_error_response (error_code message : String) (status_code : Nat)
    (details : Option (List (String × String))) (now_iso : String) :
    BodyJson × Nat :=
  (.error error_code message
    (match details with
     | none => [("timestamp", now_iso ++ "Z")]
     | some d => if d.isEmpty then [("timestamp", now_iso ++ "Z")] else d),
   status_code)

/-- `create_success_response(data)` with the default status 200 and no
message, as called by the route. -/
def create_success_response (data : ArticlesData) : BodyJson × Nat :=
  (.success data, 200)

/-! ### the route (routes/articles.py) -/

/-- `_format_articles_for_response(articles)`: copy each article
dictionary and replace its `published_at` datetime (always present and
truthy after the service) by its UTC ISO-8601 rendering. -/
def format_articles_for_response (articles : List FormattedArticle) :
    List WireArticle :=
  articles.map (fun a =>
    { id := a.id, title := a.title, summary_truncated := a.summary_truncated,
      published_at := format_datetime_value a.published_at,
      source_url := a.source_url })

/-- The `GET /api/articles/latest` handler, parameterised by the outcome
of its `try` block up to and including the service call (the argument
`outcome`), and by the current time used for error details.  The
`except` clauses are checked in source order: `DatabaseError`, then
`ApplicationError` (using `getattr(e, 'status_code', 500)`), then any
`Exception`. -/
def get_latest_articles_route (outcome : Except PyError (List FormattedArticle))
    (now_iso : String) : BodyJson × Nat :=
  match outcome with
  | .ok articles =>
    let formatted_articles := format_articles_for_response articles
    create_success_response
      { articles := formatted_articles, count := formatted_articles.length }
  | .error e =>
    if e.isDatabaseError then
      create_error_response ERROR_CODE_DATABASE_UNAVAILABLE
        "Database service is temporarily unavailable. Please try again later."
        503 none now_iso
    else if e.isApplicationError then
      create_error_response ERROR_CODE_INTERNAL_SERVER_ERROR
        "An unexpected error occurred" e.status_code none now_iso
    else
      create_error_response ERROR_CODE_INTERNAL_SERVER_ERROR
        "An unexpected error occurred" 500 none now_iso

/-- The endpoint end to end: the service runs on the fetch outcome and
the route wraps the service outcome. -/
def endpoint_latest (fetched : Except PyError (List Row)) (now_iso : String) :
    BodyJson × Nat :=
  get_latest_articles_route (get_latest_articles fetched) now_iso

/-! ### required-field guard vocabulary (for the claims about C1) -/

/-- A raw row with at least one `None` required field. -/
def Row.hasNullRequired (r : Row) : Prop :=
  r.id = none ∨ r.title = none ∨ r.published_at = none ∨ r.source_url = none

instance (r : Row) : Decidable r.hasNullRequired :=
  inferInstanceAs (Decidable (_ ∨ _ ∨ _ ∨ _))

/-- Whether a service outcome is a raised `ValidationError`. -/
def resultIsValidationError : Except PyError (List FormattedArticle) → Bool
  | .error (.validationError _) => true
  | _ => false

/-! ### sample inputs used by witnesses and counterexamples -/

/-- A raw row whose `title` is `None` and all other required fields
present. -/
def badTitleRow : Row :=
  { id := some 1, title := none, summary := none,
    published_at := some ⟨1716984000, 0, none⟩, source_url := some "https://example.com/a" }

def sampleRecordNew : ArticleRecord :=
  { id := 1, title := "new", summary := "s1",
    published_at := ⟨1716984000, 0, none⟩, source_url := "https://example.com/1" }

def sampleRecordOld : ArticleRecord :=
  { id := 2, title := "old", summary := "s2",
    published_at := ⟨1600000000, 0, none⟩, source_url := "https://example.com/2" }

/-! ## Helper lemmas -/

theorem pyReplaceAux_nil (pat rep : List Char) (f : Nat) :
    pyReplaceAux pat rep f [] = [] := by
  cases f <;> rfl

theorem startsWithList_self (l : List Char) : startsWithList l l = true := by
  induction l with
  | nil => rfl
  | cons c cs ih => simp [startsWithList, ih]

theorem pyReplaceAux_append (pat rep : List Char) (c0 : Char) (cs : List Char)
    (hpat : pat = c0 :: cs) (s : List Char) (h : ∀ c ∈ s, c ≠ c0) :
    pyReplaceAux pat rep (s ++ pat).length (s ++ pat) = s ++ rep := by
  induction s with
  | nil =>
    subst hpat
    simp only [List.nil_append, List.length_cons]
    rw [pyReplaceAux]
    have hsw : startsWithList (c0 :: cs) (c0 :: cs) = true := startsWithList_self _
    rw [if_pos ⟨List.cons_ne_nil _ _, hsw⟩]
    rw [List.drop_length, pyReplaceAux_nil]
    simp
  | cons a s' ih =>
    have ha : a ≠ c0 := h a (List.mem_cons_self a s')
    have hsw : startsWithList pat (a :: (s' ++ pat)) = false := by
      subst hpat
      simp only [startsWithList]
      rw [if_neg (fun hc => ha hc.symm)]
    simp only [List.cons_append, List.length_cons]
    rw [pyReplaceAux]
    rw [if_neg (by simp [hsw])]
    rw [ih (fun c hc => h c (List.mem_cons_of_mem a hc))]

theorem pyReplace_append (pat rep : List Char) (c0 : Char) (cs : List Char)
    (hpat : pat = c0 :: cs) (s : List Char) (h : ∀ c ∈ s, c ≠ c0) :
    pyReplace (s ++ pat) pat rep = s ++ rep :=
  pyReplaceAux_append pat rep c0 cs hpat s h

theorem mem_natCharsAux (f : Nat) (c : Char) :
    ∀ n, c ∈ natCharsAux f n → ∃ d, c = digitChar d := by
  induction f with
  | zero => intro n hc; simp [natCharsAux] at hc
  | succ f ih =>
    intro n hc
    match n with
    | 0 => simp [natCharsAux] at hc
    | n + 1 =>
      simp only [natCharsAux, List.mem_append, List.mem_singleton] at hc
      rcases hc with h | h
      · exact ih _ h
      · exact ⟨_, h⟩

theorem digitChar_ne (d : Nat) : digitChar d ≠ '+' ∧ digitChar d ≠ '.' := by
  unfold digitChar
  split <;> exact ⟨by decide, by decide⟩

theorem mem_padNum_ne (w n : Nat) (c : Char) (hc : c ∈ padNum w n) :
    c ≠ '+' ∧ c ≠ '.' := by
  unfold padNum at hc
  rcases List.mem_append.mp hc with h | h
  · rw [List.eq_of_mem_replicate h]
    exact ⟨by decide, by decide⟩
  · obtain ⟨d, rfl⟩ := mem_natCharsAux _ _ _ h
    exact digitChar_ne d

theorem mem_isoformatNoOffset_ne (w : Int) (m : Nat) (c : Char)
    (hc : c ∈ isoformatNoOffset w m) :
    c ≠ '+' ∧ (m = 0 → c ≠ '.') := by
  have hpad : ∀ wd n, c ∈ padNum wd n → c ≠ '+' ∧ (m = 0 → c ≠ '.') :=
    fun wd n h => ⟨(mem_padNum_ne wd n c h).1, fun _ => (mem_padNum_ne wd n c h).2⟩
  unfold isoformatNoOffset at hc
  simp only [List.mem_append, List.mem_cons, or_assoc] at hc
  rcases hc with h | h | h | h | h | h | h | h | h | h | h | h
  · exact hpad _ _ h
  · subst h; exact ⟨by decide, fun _ => by decide⟩
  · exact hpad _ _ h
  · subst h; exact ⟨by decide, fun _ => by decide⟩
  · exact hpad _ _ h
  · subst h; exact ⟨by decide, fun _ => by decide⟩
  · exact hpad _ _ h
  · subst h; exact ⟨by decide, fun _ => by decide⟩
  · exact hpad _ _ h
  · subst h; exact ⟨by decide, fun _ => by decide⟩
  · exact hpad _ _ h
  · -- the fractional tail `if m = 0 then [] else '.' :: padNum 6 m`
    by_cases hm : m = 0
    · rw [if_pos hm] at h
      exact absurd h (List.not_mem_nil c)
    · rw [if_neg hm] at h
      rcases List.mem_cons.mp h with rfl | h'
      · exact ⟨by decide, fun hm0 => absurd hm0 hm⟩
      · exact hpad _ _ h'

theorem format_datetime_value_eq (dt : PyDateTime) :
    format_datetime_value dt =
      String.mk (isoformatNoOffset (utcWall dt) dt.micro ++ ['Z']) :=
  congrArg String.mk
    (pyReplace_append utcOffsetChars ['Z'] '+' ['0', '0', ':', '0', '0'] rfl
      (isoformatNoOffset (utcWall dt) dt.micro)
      (fun c hc => (mem_isoformatNoOffset_ne _ _ c hc).1))

theorem string_data_append (a b : String) : (a ++ b).data = a.data ++ b.data := rfl

theorem string_length_append (a b : String) :
    (a ++ b).length = a.length + b.length := by
  show (a.data ++ b.data).length = a.data.length + b.data.length
  exact List.length_append _ _

theorem truncate_summary_none (m : Int) : truncate_summary none m = "" := rfl

theorem truncate_summary_some (s : String) (m : Int) :
    truncate_summary (some s) m =
      if (s.length : Int) ≤ m then s
      else String.mk (pySliceTo s.data m) ++ SUMMARY_TRUNCATE_SUFFIX := rfl

theorem dots_data : (SUMMARY_TRUNCATE_SUFFIX : String).data = ['.', '.', '.'] := rfl

theorem truncate_gt_data (s : String) (m : Int) (hm : 0 ≤ m)
    (hgt : ¬ (s.length : Int) ≤ m) :
    (truncate_summary (some s) m).data = s.data.take m.toNat ++ ['.', '.', '.'] := by
  rw [truncate_summary_some, if_neg hgt, string_data_append, dots_data]
  congr 1
  show pySliceTo s.data m = _
  unfold pySliceTo
  rw [if_pos hm]

/-! ## Claims -/

/-- C2: with `max_length = 100`, `truncate_summary` maps `None` to `""`,
returns a string of length at most 100 unchanged, and maps a string of
length greater than 100 to its first 100 characters followed by the
3-character suffix `"..."`, so that the output length is exactly 103. -/
theorem C2_truncate_contract :
    truncate_summary none 100 = "" ∧
    (∀ s : String, s.length ≤ 100 → truncate_summary (some s) 100 = s) ∧
    (∀ s : String, 100 < s.length →
      (truncate_summary (some s) 100).data = s.data.take 100 ++ ['.', '.', '.'] ∧
      (truncate_summary (some s) 100).length = 103) := by
  refine ⟨rfl, ?_, ?_⟩
  · intro s hs
    rw [truncate_summary_some, if_pos (by exact_mod_cast hs)]
  · intro s hs
    have hgt : ¬ (s.length : Int) ≤ 100 := by exact_mod_cast not_le.mpr hs
    have hdata := truncate_gt_data s 100 (by omega) hgt
    have h100 : (100 : Int).toNat = 100 := rfl
    rw [h100] at hdata
    refine ⟨hdata, ?_⟩
    show (truncate_summary (some s) 100).data.length = 103
    rw [hdata, List.length_append, List.length_take]
    have h1 : s.data.length = s.length := rfl
    have h2 : (['.', '.', '.'] : List Char).length = 3 := rfl
    omega

/-- C2 witness: the contract evaluated at `"hi"` (length 2) and at a
101-character string. -/
theorem C2_truncate_contract_witness :
    truncate_summary (some "hi") 100 = "hi" ∧
    (truncate_summary (some (String.mk (List.replicate 101 'a'))) 100).length = 103 :=
  ⟨C2_truncate_contract.2.1 "hi" (by decide),
   (C2_truncate_contract.2.2 (String.mk (List.replicate 101 'a')) (by decide)).2⟩

/-- C9 counterexample: with the negative `max_length` `-1` (a legal
Python `int` argument, sliced with Python semantics), truncation is not
idempotent: `truncate("ab", -1) = "a..."` but
`truncate("a...", -1) = "a....."`. -/
theorem C9_idempotent_counterexample :
    truncate_summary (some (truncate_summary (some "ab") (-1))) (-1) ≠
      truncate_summary (some "ab") (-1) := by decide

/-- C9 amended: truncation is idempotent for every summary and every
non-negative `max_length`. -/
theorem C9_idempotent_amended (s : Option String) (m : Int) (hm : 0 ≤ m) :
    truncate_summary (some (truncate_summary s m)) m = truncate_summary s m := by
  cases s with
  | none =>
    rw [truncate_summary_none, truncate_summary_some,
      if_pos (show (("" : String).length : Int) ≤ m by exact_mod_cast hm)]
  | some s =>
    by_cases hle : (s.length : Int) ≤ m
    · have h1 : truncate_summary (some s) m = s := by
        rw [truncate_summary_some, if_pos hle]
      rw [h1, h1]
    · have hdata := truncate_gt_data s m hm hle
      have hslen : s.data.length = s.length := rfl
      have hdots : (['.', '.', '.'] : List Char).length = 3 := rfl
      have htoNat : m.toNat ≤ s.data.length := by omega
      have hlen : (truncate_summary (some s) m).length = m.toNat + 3 := by
        show (truncate_summary (some s) m).data.length = m.toNat + 3
        rw [hdata, List.length_append, List.length_take]
        omega
      have hgt2 : ¬ ((truncate_summary (some s) m).length : Int) ≤ m := by
        rw [hlen]; omega
      apply String.ext
      rw [truncate_gt_data _ m hm hgt2, hdata]
      congr 1
      rw [List.take_append_eq_append_take, List.take_take, List.length_take]
      have hmin : min m.toNat m.toNat = m.toNat := by omega
      have hmin2 : min m.toNat s.data.length = m.toNat := by omega
      rw [hmin, hmin2]
      simp

/-- C9 amended witness: idempotence evaluated at summary `"abc"` with
`max_length = 1`. -/
theorem C9_idempotent_amended_witness :
    truncate_summary (some (truncate_summary (some "abc") 1)) 1 =
      truncate_summary (some "abc") 1 :=
  C9_idempotent_amended (some "abc") 1 (by decide)

/-- C4: the time normalizer maps `None` to `None`; a timestamp with no
timezone attached is rendered from its unshifted wall clock (treated as
already UTC); a timestamp with a timezone offset is rendered from its
wall clock shifted by that offset (converted to UTC); and every rendered
string ends in `'Z'`. -/
theorem C4_normalizer_contract :
    format_datetime_to_utc_iso8601 none = none ∧
    (∀ dt : PyDateTime, dt.tz = none →
      format_datetime_to_utc_iso8601 (some dt) =
        some (String.mk (isoformatNoOffset dt.wall dt.micro ++ ['Z']))) ∧
    (∀ dt : PyDateTime, ∀ off : Int, dt.tz = some off →
      format_datetime_to_utc_iso8601 (some dt) =
        some (String.mk (isoformatNoOffset (dt.wall - off) dt.micro ++ ['Z']))) ∧
    (∀ dt : PyDateTime, ∃ s, format_datetime_to_utc_iso8601 (some dt) = some s ∧
      s.data.getLast? = some 'Z') := by
  refine ⟨rfl, ?_, ?_, ?_⟩
  · intro dt h
    show some (format_datetime_value dt) = _
    rw [format_datetime_value_eq]
    unfold utcWall
    rw [h]
  · intro dt off h
    show some (format_datetime_value dt) = _
    rw [format_datetime_value_eq]
    unfold utcWall
    rw [h]
  · intro dt
    refine ⟨format_datetime_value dt, rfl, ?_⟩
    rw [format_datetime_value_eq]
    show (isoformatNoOffset _ _ ++ ['Z']).getLast? = some 'Z'
    exact List.getLast?_concat _

/-- C4 witness: the naive epoch timestamp is rendered from its own wall
clock with a `'Z'` suffix. -/
theorem C4_normalizer_contract_witness :
    format_datetime_to_utc_iso8601 (some ⟨0, 0, none⟩) =
      some (String.mk (isoformatNoOffset 0 0 ++ ['Z'])) :=
  C4_normalizer_contract.2.1 ⟨0, 0, none⟩ rfl

/-- C5 counterexample: a timestamp with a nonzero `microsecond` field is
rendered with a fractional part (microsecond precision), so the output
is not an ISO-8601 string with seconds precision as claimed. -/
theorem C5_seconds_precision_counterexample :
    format_datetime_to_utc_iso8601 (some ⟨1716984000, 500000, none⟩) =
      some "2024-05-29T12:00:00.500000Z" ∧
    '.' ∈ ("2024-05-29T12:00:00.500000Z").data := by
  exact ⟨by decide, by decide⟩

/-- C5 amended: for every non-null timestamp input the output ends in
the single character `'Z'` and never contains the substring `+00:00`;
when the timestamp's `microsecond` field is zero the output additionally
has no fractional part (seconds precision). -/
theorem C5_seconds_precision_amended (dt : PyDateTime) (s : String)
    (hs : format_datetime_to_utc_iso8601 (some dt) = some s) :
    (dt.micro = 0 → ∀ c ∈ s.data, c ≠ '.') ∧ s.data.getLast? = some 'Z' ∧
    (∀ pre post : List Char, s.data ≠ pre ++ utcOffsetChars ++ post) := by
  obtain rfl : format_datetime_value dt = s := Option.some.inj hs
  rw [format_datetime_value_eq]
  have hdata : (String.mk (isoformatNoOffset (utcWall dt) dt.micro ++ ['Z'])).data =
      isoformatNoOffset (utcWall dt) dt.micro ++ ['Z'] := rfl
  refine ⟨?_, ?_, ?_⟩
  · intro hm c hc
    rw [hdata] at hc
    rcases List.mem_append.mp hc with h | h
    · exact (mem_isoformatNoOffset_ne _ _ c h).2 hm
    · rw [List.mem_singleton.mp h]; decide
  · rw [hdata]
    exact List.getLast?_concat _
  · intro pre post heq
    have hplus : '+' ∈ (String.mk (isoformatNoOffset (utcWall dt) dt.micro ++ ['Z'])).data := by
      rw [heq]
      simp [utcOffsetChars]
    rw [hdata] at hplus
    rcases List.mem_append.mp hplus with h | h
    · exact (mem_isoformatNoOffset_ne _ _ '+' h).1 rfl
    · exact absurd (List.mem_singleton.mp h) (by decide)

/-- C5 amended witness: the amended contract evaluated at the naive
epoch timestamp, whose rendering is `"1970-01-01T00:00:00Z"`. -/
theorem C5_seconds_precision_amended_witness :
    ((PyDateTime.mk 0 0 none).micro = 0 →
      ∀ c ∈ ("1970-01-01T00:00:00Z" : String).data, c ≠ '.') ∧
    ("1970-01-01T00:00:00Z" : String).data.getLast? = some 'Z' ∧
    (∀ pre post : List Char,
      ("1970-01-01T00:00:00Z" : String).data ≠ pre ++ utcOffsetChars ++ post) :=
  C5_seconds_precision_amended ⟨0, 0, none⟩ "1970-01-01T00:00:00Z" (by decide)

theorem format_article_ok_of_not_null (r : Row) (h : ¬ r.hasNullRequired) :
    ∃ f, format_article_for_api r = .ok f := by
  rcases r with ⟨id, title, summary, pa, url⟩
  cases id <;> cases title <;> cases pa <;> cases url <;>
    simp_all [format_article_for_api, Row.hasNullRequired]

theorem format_row_error_cons (r : Row) (rest : List Row) (e : PyError)
    (hr : format_article_for_api r = .error e) :
    format_articles_list (r :: rest) = .error e := by
  simp [format_articles_list, hr]

theorem format_list_prefix_error (good rows2 : List Row)
    (hgood : ∀ g ∈ good, ¬ g.hasNullRequired) (e : PyError)
    (he : format_articles_list rows2 = .error e) :
    format_articles_list (good ++ rows2) = .error e := by
  induction good with
  | nil => simpa using he
  | cons g gs ih =>
    obtain ⟨f, hf⟩ := format_article_ok_of_not_null g (hgood g (List.mem_cons_self g gs))
    have ih2 := ih (fun x hx => hgood x (List.mem_cons_of_mem g hx))
    simp [format_articles_list, hf, ih2]

theorem service_fails_with (rows : List Row) (m : String)
    (hlist : format_articles_list rows = .error (.valueError m)) :
    get_latest_articles (.ok rows) =
      .error (.applicationError
        ("Unexpected error in get_latest_articles: " ++ m) 500) := by
  unfold get_latest_articles
  rw [show service_try_body (.ok rows) = .error (.valueError m) from hlist]
  rfl

theorem service_never_validationError (fetched : Except PyError (List Row)) :
    resultIsValidationError (get_latest_articles fetched) = false := by
  unfold get_latest_articles
  cases h : service_try_body fetched with
  | ok fa => rfl
  | error e => cases he : e.isSQLAlchemyError <;> simp [he, resultIsValidationError]

/-- C1 counterexample: a row with a `None` title makes `get_latest_articles`
fail with a generic `ApplicationError` (the formatter's `ValueError`
wrapped by the service's catch-all `except Exception` clause), not with a
`ValidationError` as the claim states. -/
theorem C1_null_field_counterexample :
    get_latest_articles (.ok [badTitleRow]) =
      .error (.applicationError
        "Unexpected error in get_latest_articles: Article title cannot be None for API formatting"
        500) ∧
    resultIsValidationError (get_latest_articles (.ok [badTitleRow])) = false :=
  ⟨rfl, rfl⟩

/-- C1 amended: whenever the fetched row sequence splits as
`good ++ r :: rest` with every row of `good` free of `None` required
fields, a `None` required field in `r` makes the whole call fail — no
partial result — with an `ApplicationError` of status 500 wrapping the
formatter's `ValueError` message that names the first `None` field of
`r` in the source check order `id`, `title`, `published_at`,
`source_url`; and no outcome of the service is ever a
`ValidationError`. -/
theorem C1_null_field_amended (good rest : List Row) (r : Row)
    (hgood : ∀ g ∈ good, ¬ g.hasNullRequired) :
    ((r.id = none →
      get_latest_articles (.ok (good ++ r :: rest)) =
        .error (.applicationError
          "Unexpected error in get_latest_articles: Article ID cannot be None for API formatting"
          500)) ∧
     (r.id ≠ none → r.title = none →
      get_latest_articles (.ok (good ++ r :: rest)) =
        .error (.applicationError
          "Unexpected error in get_latest_articles: Article title cannot be None for API formatting"
          500)) ∧
     (r.id ≠ none → r.title ≠ none → r.published_at = none →
      get_latest_articles (.ok (good ++ r :: rest)) =
        .error (.applicationError
          "Unexpected error in get_latest_articles: Article published_at cannot be None for API formatting"
          500)) ∧
     (r.id ≠ none → r.title ≠ none → r.published_at ≠ none → r.source_url = none →
      get_latest_articles (.ok (good ++ r :: rest)) =
        .error (.applicationError
          "Unexpected error in get_latest_articles: Article source_url cannot be None for API formatting"
          500))) ∧
    (∀ fetched : Except PyError (List Row),
      resultIsValidationError (get_latest_articles fetched) = false) := by
  refine ⟨⟨?_, ?_, ?_, ?_⟩, service_never_validationError⟩
  · intro h1
    have hr : format_article_for_api r =
        .error (.valueError "Article ID cannot be None for API formatting") := by
      unfold format_article_for_api
      rw [h1]
    exact service_fails_with _ _ (format_list_prefix_error good _ hgood _
      (format_row_error_cons r rest _ hr))
  · intro h1 h2
    obtain ⟨i, hi⟩ := Option.ne_none_iff_exists'.mp h1
    have hr : format_article_for_api r =
        .error (.valueError "Article title cannot be None for API formatting") := by
      unfold format_article_for_api
      rw [hi, h2]
    exact service_fails_with _ _ (format_list_prefix_error good _ hgood _
      (format_row_error_cons r rest _ hr))
  · intro h1 h2 h3
    obtain ⟨i, hi⟩ := Option.ne_none_iff_exists'.mp h1
    obtain ⟨t, ht⟩ := Option.ne_none_iff_exists'.mp h2
    have hr : format_article_for_api r =
        .error (.valueError "Article published_at cannot be None for API formatting") := by
      unfold format_article_for_api
      rw [hi, ht, h3]
    exact service_fails_with _ _ (format_list_prefix_error good _ hgood _
      (format_row_error_cons r rest _ hr))
  · intro h1 h2 h3 h4
    obtain ⟨i, hi⟩ := Option.ne_none_iff_exists'.mp h1
    obtain ⟨t, ht⟩ := Option.ne_none_iff_exists'.mp h2
    obtain ⟨p, hp⟩ := Option.ne_none_iff_exists'.mp h3
    have hr : format_article_for_api r =
        .error (.valueError "Article source_url cannot be None for API formatting") := by
      unfold format_article_for_api
      rw [hi, ht, hp, h4]
    exact service_fails_with _ _ (format_list_prefix_error good _ hgood _
      (format_row_error_cons r rest _ hr))

/-- C1 amended witness: the amended claim evaluated on the single bad
row whose `title` is `None`, using the second conjunct (the `title`
message). -/
theorem C1_null_field_amended_witness :
    get_latest_articles (.ok ([] ++ badTitleRow :: [])) =
      .error (.applicationError
        "Unexpected error in get_latest_articles: Article title cannot be None for API formatting"
        500) :=
  (C1_null_field_amended [] [] badTitleRow
    (fun g hg => absurd hg (List.not_mem_nil g))).1.2.1 (by decide) rfl

/-- C3: the repository fetch returns at most 5 rows, each row is the
projection of a stored article onto the selected columns `id`, `title`,
`summary`, `published_at`, `source_url`, and the rows are ordered by
`published_at` descending: for every valid index `i`,
`result[i].published_at >= result[i+1].published_at`. -/
theorem C3_fetch_contract (table : List ArticleRecord) :
    (fetch_articles_from_database table).length ≤ 5 ∧
    (∀ r ∈ fetch_articles_from_database table, ∃ a ∈ table, r = selectColumns a) ∧
    (∀ i : Nat, ∀ hi : i + 1 < (fetch_articles_from_database table).length,
      ∀ p q : PyDateTime,
      ((fetch_articles_from_database table).get ⟨i, by omega⟩).published_at = some p →
      ((fetch_articles_from_database table).get ⟨i + 1, hi⟩).published_at = some q →
      q.micros ≤ p.micros) := by
  have hsorted : List.Sorted pubDesc (List.insertionSort pubDesc table) :=
    List.sorted_insertionSort pubDesc table
  have hpw : List.Pairwise pubDesc ((List.insertionSort pubDesc table).take 5) :=
    List.Pairwise.sublist (List.take_sublist 5 _) hsorted
  refine ⟨?_, ?_, ?_⟩
  · show (((List.insertionSort pubDesc table).take 5).map selectColumns).length ≤ 5
    rw [List.length_map, List.length_take]
    omega
  · intro r hr
    rw [show fetch_articles_from_database table =
      ((List.insertionSort pubDesc table).take 5).map selectColumns from rfl,
      List.mem_map] at hr
    obtain ⟨a, ha, rfl⟩ := hr
    exact ⟨a, (List.perm_insertionSort pubDesc table).mem_iff.mp
      (List.mem_of_mem_take ha), rfl⟩
  · intro i hi p q hp hq
    have hlen : (fetch_articles_from_database table).length =
        ((List.insertionSort pubDesc table).take 5).length :=
      List.length_map _ _
    have hi2 : i + 1 < ((List.insertionSort pubDesc table).take 5).length := by
      rw [hlen] at hi; exact hi
    have hi1 : i < ((List.insertionSort pubDesc table).take 5).length := by omega
    rw [List.get_eq_getElem] at hp hq
    simp only [fetch_articles_from_database, List.getElem_map, selectColumns] at hp hq
    have hp' := Option.some.inj hp
    have hq' := Option.some.inj hq
    rw [← hp', ← hq']
    exact List.pairwise_iff_get.mp hpw ⟨i, hi1⟩ ⟨i + 1, hi2⟩ (by simp)

/-- C3 witness: on a two-article table stored oldest first, the fetch
returns the newer article first and the ordering inequality holds at
index 0. -/
theorem C3_fetch_contract_witness :
    (PyDateTime.mk 1600000000 0 none).micros ≤ (PyDateTime.mk 1716984000 0 none).micros :=
  (C3_fetch_contract [sampleRecordOld, sampleRecordNew]).2.2 0 (by decide)
    ⟨1716984000, 0, none⟩ ⟨1600000000, 0, none⟩ rfl rfl

/-- C6: a storage failure (`SQLAlchemyError`) raised by the repository
is wrapped by the service into a `DatabaseError`, which propagates to
the endpoint unchanged; the endpoint then answers HTTP 503 with an error
envelope whose code is `DATABASE_UNAVAILABLE`. -/
theorem C6_database_error_path (msg now : String) :
    get_latest_articles (.error (.sqlalchemyError msg)) =
      .error (.databaseError ("Database query failed: " ++ msg)) ∧
    endpoint_latest (.error (.sqlalchemyError msg)) now =
      (.error ERROR_CODE_DATABASE_UNAVAILABLE
        "Database service is temporarily unavailable. Please try again later."
        [("timestamp", now ++ "Z")], 503) :=
  ⟨rfl, rfl⟩

/-- C7: every success response of the articles endpoint carries a
payload `{articles, count}` with `count` equal to the length of the
articles list. -/
theorem C7_count_matches_length (outcome : Except PyError (List FormattedArticle))
    (now : String) (data : ArticlesData) (status : Nat)
    (h : get_latest_articles_route outcome now = (.success data, status)) :
    data.count = data.articles.length := by
  cases outcome with
  | ok articles =>
    have hroute : get_latest_articles_route (.ok articles) now =
        (.success ⟨format_articles_for_response articles,
          (format_articles_for_response articles).length⟩, 200) := rfl
    rw [hroute] at h
    have hbody := congrArg Prod.fst h
    simp only at hbody
    injection hbody with hdata
    rw [← hdata]
  | error e =>
    exfalso
    cases e <;>
      simp [get_latest_articles_route, create_error_response, PyError.isDatabaseError,
        PyError.isApplicationError] at h

/-- C7 witness: the empty success response has `count = 0 = length`. -/
theorem C7_count_matches_length_witness :
    (ArticlesData.mk [] 0).count = (ArticlesData.mk [] 0).articles.length :=
  C7_count_matches_length (.ok []) "t" ⟨[], 0⟩ 200 rfl

/-- C8: a recognized application error other than `DatabaseError` is
answered with HTTP status equal to the error's declared status code
(`getattr(e, 'status_code', 500)`) and code `INTERNAL_SERVER_ERROR`;
any unrecognized exception is answered with HTTP 500 and code
`INTERNAL_SERVER_ERROR`; in both cases the body carries only the fixed
message and timestamp, no raw exception detail. -/
theorem C8_error_translation (e : PyError) (now : String) :
    (e.isApplicationError = true → e.isDatabaseError = false →
      get_latest_articles_route (.error e) now =
        (.error ERROR_CODE_INTERNAL_SERVER_ERROR "An unexpected error occurred"
          [("timestamp", now ++ "Z")], e.status_code)) ∧
    (e.isApplicationError = false →
      get_latest_articles_route (.error e) now =
        (.error ERROR_CODE_INTERNAL_SERVER_ERROR "An unexpected error occurred"
          [("timestamp", now ++ "Z")], 500)) := by
  cases e with
  | sqlalchemyError m => exact ⟨fun h1 _ => (nomatch h1), fun _ => rfl⟩
  | valueError m => exact ⟨fun h1 _ => (nomatch h1), fun _ => rfl⟩
  | applicationError m s => exact ⟨fun _ _ => rfl, fun h => nomatch h⟩
  | databaseError m => exact ⟨fun _ h2 => (nomatch h2), fun h => nomatch h⟩
  | validationError m => exact ⟨fun _ _ => rfl, fun h => nomatch h⟩
  | notFoundError m => exact ⟨fun _ _ => rfl, fun h => nomatch h⟩
  | otherError m => exact ⟨fun h1 _ => (nomatch h1), fun _ => rfl⟩

/-- C8 witness: a `ValidationError` (declared status 400) is answered
with 400 and `INTERNAL_SERVER_ERROR`; a raw `ValueError` is answered
with 500 and `INTERNAL_SERVER_ERROR`. -/
theorem C8_error_translation_witness :
    get_latest_articles_route (.error (.validationError "boom")) "t" =
      (.error ERROR_CODE_INTERNAL_SERVER_ERROR "An unexpected error occurred"
        [("timestamp", "tZ")], 400) ∧
    get_latest_articles_route (.error (.valueError "x")) "t" =
      (.error ERROR_CODE_INTERNAL_SERVER_ERROR "An unexpected error occurred"
        [("timestamp", "tZ")], 500) :=
  ⟨(C8_error_translation (.validationError "boom") "t").1 rfl rfl,
   (C8_error_translation (.valueError "x") "t").2 rfl⟩

/-- C10: `create_error_response` substitutes `{timestamp: <utcnow
ISO-8601 + "Z">}` for the details both when the caller passes no details
and when the caller passes an empty dictionary — the empty dictionary is
falsy, so `details or default` treats it like `None`. -/
theorem C10_details_default :
    (∀ code msg : String, ∀ sc : Nat, ∀ now : String,
      create_error_response code msg sc none now =
        (.error code msg [("timestamp", now ++ "Z")], sc)) ∧
    (∀ code msg : String, ∀ sc : Nat, ∀ now : String,
      create_error_response code msg sc (some []) now =
        (.error code msg [("timestamp", now ++ "Z")], sc)) :=
  ⟨fun _ _ _ _ => rfl, fun _ _ _ _ => rfl⟩

end LLMTopix
